import Mathlib

/-!
Verification development for the website-performance-analyser repository
(src/page_speed_insights.py). The Python script is shallowly embedded:
the single source file defines `is_valid_url` (lines 92-96), `analyze_webpage`
(lines 103-165) and the button-press flow of `main` (lines 167-234), plus the
module-level credential load (lines 14-17). External collaborators
(requests.get, the parsed BeautifulSoup document, the environment) are
parameters of the embedded functions.
-/

namespace WPA

/-- Python exceptions relevant to the embedded script. `requestError` stands
for `requests.exceptions.RequestException` and its subclasses (HTTPError from
`raise_for_status`, Timeout, ConnectionError); `keyError` for `KeyError`;
`valueError` for pandas `ValueError`. -/
inductive PyErr
  | requestError (msg : String)
  | keyError (key : String)
  | valueError (msg : String)
  | otherError (msg : String)
deriving DecidableEq, Repr

/-- Tag attributes, as the association list BeautifulSoup exposes. -/
abbrev Attrs := List (String × String)

/-- Attribute lookup on a tag: first binding of the key, if any. -/
def attrGet (a : Attrs) (k : String) : Option String :=
  (a.find? (fun p => p.1 == k)).map (fun p => p.2)

/-- The document nodes that `analyze_webpage` queries through BeautifulSoup:
the title tag (with its `.string`, which Python may report as None), meta tags
with their attributes, h1/h2/h3 headers, img, a, script and link tags. -/
inductive Node
  | title (s : Option String)
  | meta (attrs : Attrs)
  | h1
  | h2
  | h3
  | img
  | anchor
  | script
  | link (attrs : Attrs)
deriving DecidableEq, Repr

/-- A parsed document: the sequence of nodes BeautifulSoup would yield,
in document order. -/
abbrev Soup := List Node

/-- `soup.title`: the first title tag, carrying its `.string`. -/
def soupTitle (soup : Soup) : Option (Option String) :=
  soup.findSome? (fun n =>
    match n with
    | Node.title s => some s
    | _ => none)

/-- `soup.find("meta", attrs={"name": v})`: attributes of the first meta tag
whose name attribute equals `v`. -/
def findMetaNamed (soup : Soup) (v : String) : Option Attrs :=
  soup.findSome? (fun n =>
    match n with
    | Node.meta a => if attrGet a "name" = some v then some a else none
    | _ => none)

/-- `len(soup.find_all(["h1", "h2", "h3"]))`. -/
def countHeaders (soup : Soup) : Nat :=
  (soup.filter (fun n =>
    match n with
    | Node.h1 => true
    | Node.h2 => true
    | Node.h3 => true
    | _ => false)).length

/-- `len(soup.find_all("img"))`. -/
def countImages (soup : Soup) : Nat :=
  (soup.filter (fun n =>
    match n with
    | Node.img => true
    | _ => false)).length

/-- `len(soup.find_all("a"))`. -/
def countLinks (soup : Soup) : Nat :=
  (soup.filter (fun n =>
    match n with
    | Node.anchor => true
    | _ => false)).length

/-- `len(soup.find_all("meta"))`. -/
def countMetaTags (soup : Soup) : Nat :=
  (soup.filter (fun n =>
    match n with
    | Node.meta _ => true
    | _ => false)).length

/-- `len(soup.find_all("script"))`. -/
def countScripts (soup : Soup) : Nat :=
  (soup.filter (fun n =>
    match n with
    | Node.script => true
    | _ => false)).length

/-- BeautifulSoup matching of `rel="stylesheet"` on a link tag: `rel` is a
multi-valued attribute, so the match succeeds when `stylesheet` is one of its
whitespace-separated values. -/
def relIsStylesheet (a : Attrs) : Bool :=
  match attrGet a "rel" with
  | some r => (r.splitOn " ").contains "stylesheet"
  | none => false

/-- `len(soup.find_all("link", rel="stylesheet"))`. -/
def countCssFiles (soup : Soup) : Nat :=
  (soup.filter (fun n =>
    match n with
    | Node.link a => relIsStylesheet a
    | _ => false)).length

/-- The mock Core Web Vitals dictionary (lines 117-121). -/
structure CoreWebVitals where
  lcp : String
  fid : String
  cls : String
deriving DecidableEq, Repr

/-- The additional metrics dictionary (lines 130-137). -/
structure AdditionalMetrics where
  headers : Nat
  images : Nat
  links : Nat
  metaTags : Nat
  scripts : Nat
  cssFiles : Nat
deriving DecidableEq, Repr

/-- The mobile metrics dictionary (lines 140-145). -/
structure MobileMetrics where
  mobileFriendly : String
  viewportMeta : String
  textSize : String
  tapTargetSpacing : String
deriving DecidableEq, Repr

/-- The dictionary returned by `analyze_webpage` on success (lines 148-156).
All seven keys are always present; `pageTitle` is `Option String` because
`soup.title.string` can be Python None when the title tag has no single
string child. -/
structure AnalysisResult where
  pageTitle : Option String
  metaDescription : String
  coreWebVitals : CoreWebVitals
  seoScore : Nat
  accessibilityScore : Nat
  additionalMetrics : AdditionalMetrics
  mobileMetrics : MobileMetrics
deriving DecidableEq, Repr

/-- Line 112: `page_title = soup.title.string if soup.title else "No Title"`.
The outer Option is collapsed: a missing title tag gives the default string,
a present tag gives its `.string`, which itself may be Python None. -/
def pageTitleOf (soup : Soup) : Option String :=
  match soupTitle soup with
  | some s => s
  | none => some "No Title"

/-- Lines 113-114: the description meta tag is looked up; when present, its
content attribute is read with dictionary access, which raises `KeyError` if
the attribute is missing; when absent, the default string is used. -/
def metaDescriptionOf (soup : Soup) : Except PyErr String :=
  match findMetaNamed soup "description" with
  | some a =>
    match attrGet a "content" with
    | some c => Except.ok c
    | none => Except.error (PyErr.keyError "content")
  | none => Except.ok "No Description"

/-- The result dictionary of lines 148-156, given the document and the
already-computed meta description: the mock Core Web Vitals and scores of
lines 116-127, the element counts of lines 130-137, and the mobile metrics of
lines 140-145 (only the viewport check reads the document). -/
def fullRecord (soup : Soup) (metaDescription : String) : AnalysisResult :=
  { pageTitle := pageTitleOf soup
    metaDescription := metaDescription
    coreWebVitals := { lcp := "2.5s", fid := "100ms", cls := "0.1" }
    seoScore := 85
    accessibilityScore := 90
    additionalMetrics :=
      { headers := countHeaders soup
        images := countImages soup
        links := countLinks soup
        metaTags := countMetaTags soup
        scripts := countScripts soup
        cssFiles := countCssFiles soup }
    mobileMetrics :=
      { mobileFriendly := "Yes"
        viewportMeta :=
          if (findMetaNamed soup "viewport").isSome then "Present"
          else "Missing"
        textSize := "Readable"
        tapTargetSpacing := "Adequate" } }

/-- Lines 111-156 of `analyze_webpage`: everything after the fetch. Builds
the full result dictionary from the parsed document; the only failure point
is the `KeyError` inside `metaDescriptionOf`. -/
def extractResult (soup : Soup) : Except PyErr AnalysisResult :=
  match metaDescriptionOf soup with
  | Except.error e => Except.error e
  | Except.ok metaDescription => Except.ok (fullRecord soup metaDescription)

/-- Outcome of `requests.get(url, timeout=...)` followed by HTML parsing:
either a response with its final HTTP status code and the parsed body, or a
transport-level `RequestException` (connection failure, timeout expiry). -/
inductive FetchOutcome
  | ok (status : Nat) (doc : Soup)
  | transportError (msg : String)
deriving DecidableEq, Repr

/-- `response.raise_for_status()` raises `HTTPError` exactly for client and
server error codes, 400 <= status < 600; informational, success and
redirect statuses pass through. -/
def raiseForStatusFails (status : Nat) : Bool :=
  decide (400 ≤ status ∧ status < 600)

/-- `analyze_webpage` (lines 103-165), parameterised by the network: `fetch`
maps a URL and the timeout argument to the outcome of `requests.get`. The
body fetches with `timeout=10`, calls `raise_for_status`, extracts metrics,
and returns the full dictionary; every exception path (RequestException at
lines 158-161, any other exception at lines 162-165) returns None. -/
def analyze_webpage (fetch : String → Nat → FetchOutcome) (url : String) :
    Option AnalysisResult :=
  match fetch url 10 with
  | FetchOutcome.transportError _ => none
  | FetchOutcome.ok status doc =>
    if raiseForStatusFails status then none
    else
      match extractResult doc with
      | Except.error _ => none
      | Except.ok r => some r

/-- Batch analysis: the script handles one URL per interaction, so a batch of
URLs is processed by iterating the per-URL analysis in input order; each URL
that yields a result contributes it, paired with its URL, and failed URLs are
dropped (line 184 guards every use of the result on its truthiness). -/
def analyzeBatch (fetch : String → Nat → FetchOutcome) (urls : List String) :
    List (String × AnalysisResult) :=
  urls.filterMap (fun u => (analyze_webpage fetch u).map (fun r => (u, r)))

/-- The first list is a prefix of the second, on characters. -/
def charsStart : List Char → List Char → Bool
  | [], _ => true
  | _ :: _, [] => false
  | p :: ps, c :: cs => p == c && charsStart ps cs

/-- The candidate string starts with the http or https scheme. -/
def hasHttpScheme (s : String) : Bool :=
  charsStart "http://".toList s.toList || charsStart "https://".toList s.toList

/-- The characters of the candidate after the scheme separator. -/
def afterScheme (s : String) : List Char :=
  if charsStart "https://".toList s.toList then s.toList.drop 8
  else if charsStart "http://".toList s.toList then s.toList.drop 7
  else s.toList

/-- The host component: characters after the scheme up to the first path,
query, fragment, port or userinfo delimiter. -/
def urlHost (s : String) : List Char :=
  (afterScheme s).takeWhile (fun c =>
    c != '/' && c != '?' && c != '#' && c != ':' && c != '@')

/-- Modelled from the spec: the external `validators.url` library call at
line 94 (the validators package is a third-party dependency whose source is
not part of this repository). Per the spec, the validator accepts exactly the
absolute URLs with scheme http or https and a non-empty host; a failure is a
falsy return value, not an exception. -/
def validators_url (s : String) : Except PyErr Bool :=
  Except.ok (hasHttpScheme s && !(urlHost s).isEmpty)

/-- `is_valid_url` (lines 92-96), parameterised by the library behaviour:
returns the library verdict, and the bare `except` turns any exception into
False. -/
def is_valid_url (validatorUrl : String → Except PyErr Bool) (url : String) :
    Bool :=
  match validatorUrl url with
  | Except.ok b => b
  | Except.error _ => false

/-- A Python value appearing in the export dictionary at lines 221-226:
every value there is an int or a str. -/
inductive PyVal
  | int (n : Nat)
  | str (s : String)
deriving DecidableEq, Repr

/-- pandas treats both ints and strings as scalars (neither is list-like). -/
def PyVal.isScalar : PyVal → Bool
  | PyVal.int _ => true
  | PyVal.str _ => true

/-- Rendering of a value in a CSV cell. -/
def PyVal.render : PyVal → String
  | PyVal.int n => toString n
  | PyVal.str s => s

/-- The dictionary passed to `pd.DataFrame` at lines 221-226: the additional
metrics, the mobile metrics, and the two scores, merged in that order. -/
def exportDict (r : AnalysisResult) : List (String × PyVal) :=
  [("Headers", PyVal.int r.additionalMetrics.headers),
   ("Images", PyVal.int r.additionalMetrics.images),
   ("Links", PyVal.int r.additionalMetrics.links),
   ("Meta Tags", PyVal.int r.additionalMetrics.metaTags),
   ("Scripts", PyVal.int r.additionalMetrics.scripts),
   ("CSS Files", PyVal.int r.additionalMetrics.cssFiles),
   ("Mobile Friendly", PyVal.str r.mobileMetrics.mobileFriendly),
   ("Viewport Meta", PyVal.str r.mobileMetrics.viewportMeta),
   ("Text Size", PyVal.str r.mobileMetrics.textSize),
   ("Tap Target Spacing", PyVal.str r.mobileMetrics.tapTargetSpacing),
   ("SEO Score", PyVal.int r.seoScore),
   ("Accessibility Score", PyVal.int r.accessibilityScore)]

/-- Tabular rendering of a column dictionary: header row of the keys, then
one row of the values. -/
def dataFrameCsv (d : List (String × PyVal)) : String :=
  String.intercalate "," (d.map (fun p => p.1)) ++ "\n" ++
    String.intercalate "," (d.map (fun p => PyVal.render p.2))

/-- `pd.DataFrame(dict)` semantics at the call site: constructing a DataFrame
from a dictionary whose values are all scalars raises
`ValueError("If using all scalar values, you must pass an index")`; only a
dictionary with a list-like value would yield a frame. -/
def pdDataFrameOfDict (d : List (String × PyVal)) :
    Except PyErr (List (String × PyVal)) :=
  if d.all (fun p => PyVal.isScalar p.2) then
    Except.error (PyErr.valueError "If using all scalar values, you must pass an index")
  else
    Except.ok d

/-- The CSV export expression at lines 221-226:
`pd.DataFrame({...}).to_csv(index=True)`. -/
def exportCsv (r : AnalysisResult) : Except PyErr String :=
  (pdDataFrameOfDict (exportDict r)).map dataFrameCsv

/-- Observable outcome of one press of the Analyze button (lines 167-234):
how many HTTP GET requests were issued, the result dictionary displayed (if
any), the CSV artifact offered for download (if any), the exception caught by
the handler at lines 232-234 (if any), and whether the invalid-URL error of
line 231 was shown. -/
structure FlowOutcome where
  networkCalls : Nat
  displayed : Option AnalysisResult
  exportArtifact : Option String
  caughtError : Option PyErr
  validationErrorShown : Bool
deriving DecidableEq, Repr

/-- The Analyze button flow (lines 167-234). The guard at line 169 requires a
non-empty URL string that the validator accepts; only then is
`analyze_webpage` called (one GET). When it returns a result, the display and
the download-button data are computed; the DataFrame construction can raise,
in which case the exception is caught at line 232 and no artifact is offered.
When it returns None, nothing further happens. Otherwise line 231 shows the
invalid-URL error and no network call is made. -/
def analyzeButtonFlow (validatorUrl : String → Except PyErr Bool)
    (fetch : String → Nat → FetchOutcome) (url : String) : FlowOutcome :=
  if url ≠ "" && is_valid_url validatorUrl url then
    match analyze_webpage fetch url with
    | some r =>
      match exportCsv r with
      | Except.ok csv =>
        { networkCalls := 1, displayed := some r, exportArtifact := some csv
          caughtError := none, validationErrorShown := false }
      | Except.error e =>
        { networkCalls := 1, displayed := some r, exportArtifact := none
          caughtError := some e, validationErrorShown := false }
    | none =>
      { networkCalls := 1, displayed := none, exportArtifact := none
        caughtError := none, validationErrorShown := false }
  else
    { networkCalls := 0, displayed := none, exportArtifact := none
      caughtError := none, validationErrorShown := true }

/-- What module start-up (lines 14-21) produces: the credential value and any
error reported about the configuration. -/
structure StartupOutcome where
  apiKey : Option String
  reportedConfigError : Option String
deriving DecidableEq, Repr

/-- Lines 14-17: `api_key = os.getenv("API_KEY")`. The environment is read
once; no check follows, no error is ever reported, and `api_key` is never
used again anywhere in the script. -/
def startupConfig (env : String → Option String) : StartupOutcome :=
  { apiKey := env "API_KEY", reportedConfigError := none }

lemma isNone_map {α β : Type} (f : α → β) (o : Option α) :
    (o.map f).isNone = o.isNone := by
  cases o <;> rfl

lemma length_filterMap_isNone {α β : Type} (g : α → Option β) (l : List α) :
    (l.filterMap g).length = l.length - l.countP (fun a => (g a).isNone) := by
  induction l with
  | nil => rfl
  | cons a t ih =>
    have hle : t.countP (fun a => (g a).isNone) ≤ t.length :=
      List.countP_le_length _
    cases hg : g a with
    | none =>
      simp [List.filterMap_cons, hg, List.countP_cons, ih]
    | some b =>
      simp [List.filterMap_cons, hg, List.countP_cons, ih]
      omega

lemma sublist_map_fst_filterMap {α β : Type} (g : α → Option β) (l : List α) :
    List.Sublist
      ((l.filterMap (fun a => (g a).map (fun b => (a, b)))).map Prod.fst) l := by
  induction l with
  | nil => simp
  | cons a t ih =>
    cases hg : g a with
    | none =>
      simpa [List.filterMap_cons, hg] using List.Sublist.cons a ih
    | some b =>
      simpa [List.filterMap_cons, hg] using List.Sublist.cons₂ a ih

lemma extract_ok_shape (soup : Soup) (r : AnalysisResult)
    (h : extractResult soup = Except.ok r) :
    r.coreWebVitals = { lcp := "2.5s", fid := "100ms", cls := "0.1" } ∧
    r.seoScore = 85 ∧ r.accessibilityScore = 90 ∧
    r.additionalMetrics =
      { headers := countHeaders soup, images := countImages soup
        links := countLinks soup, metaTags := countMetaTags soup
        scripts := countScripts soup, cssFiles := countCssFiles soup } ∧
    r.mobileMetrics =
      { mobileFriendly := "Yes"
        viewportMeta :=
          if (findMetaNamed soup "viewport").isSome then "Present"
          else "Missing"
        textSize := "Readable", tapTargetSpacing := "Adequate" } := by
  unfold extractResult at h
  revert h
  cases hm : metaDescriptionOf soup with
  | error e => intro h; simp at h
  | ok d =>
    intro h
    injection h with h
    subst h
    exact ⟨rfl, rfl, rfl, rfl, rfl⟩

lemma analyze_some_extract (fetch : String → Nat → FetchOutcome) (url : String)
    (r : AnalysisResult) (h : analyze_webpage fetch url = some r) :
    ∃ doc : Soup, extractResult doc = Except.ok r := by
  unfold analyze_webpage at h
  revert h
  cases hf : fetch url 10 with
  | transportError m => intro h; simp at h
  | ok s doc =>
    by_cases hs : raiseForStatusFails s = true
    · intro h; simp [hs] at h
    · rw [Bool.not_eq_true] at hs
      cases he : extractResult doc with
      | error e => intro h; simp [hs, he] at h
      | ok r2 =>
        intro h
        simp [hs, he] at h
        exact ⟨doc, by rw [he, h]⟩

/-- C1 counterexample: a URL whose fetch fully succeeds (HTTP 200, no
transport error) can still contribute no result, because metric extraction
raises `KeyError` on a description meta tag without a content attribute. So a
batch of N = 1 valid URLs with K = 0 fetch failures yields 0 results, not
N − K = 1. -/
theorem analyzeBatch_fetch_count_cex :
    (fun (_ : String) (_ : Nat) =>
        FetchOutcome.ok 200 [Node.meta [("name", "description")]])
        "https://a.example" 10 =
      FetchOutcome.ok 200 [Node.meta [("name", "description")]] ∧
    raiseForStatusFails 200 = false ∧
    (analyzeBatch
      (fun _ _ => FetchOutcome.ok 200 [Node.meta [("name", "description")]])
      ["https://a.example"]).length = 0 := by
  refine ⟨rfl, by decide, rfl⟩

/-- C1 amended: for a batch of N valid URLs processed in input order, where
exactly K URLs fail their analysis (transport failure, HTTP 4xx/5xx, or
extraction error), the batch contains exactly N − K results and its URL
sequence is a subsequence of the input order. -/
theorem analyzeBatch_length_sublist (fetch : String → Nat → FetchOutcome)
    (urls : List String) (K : Nat)
    (hK : urls.countP (fun u => (analyze_webpage fetch u).isNone) = K) :
    (analyzeBatch fetch urls).length = urls.length - K ∧
    List.Sublist ((analyzeBatch fetch urls).map Prod.fst) urls := by
  subst hK
  constructor
  · rw [analyzeBatch, length_filterMap_isNone]
    simp only [isNone_map]
  · exact sublist_map_fst_filterMap _ urls

/-- Witness for C1 at a concrete batch: three URLs, the middle one timing
out, give two results in input order. -/
theorem analyzeBatch_length_sublist_witness :
    (["https://a.example", "https://b.example", "https://c.example"].countP
      (fun u =>
        (analyze_webpage
          (fun v _ =>
            if v = "https://b.example" then FetchOutcome.transportError "timeout"
            else FetchOutcome.ok 200 []) u).isNone) = 1) ∧
    ((analyzeBatch
        (fun v _ =>
          if v = "https://b.example" then FetchOutcome.transportError "timeout"
          else FetchOutcome.ok 200 [])
        ["https://a.example", "https://b.example", "https://c.example"]).length =
      ["https://a.example", "https://b.example", "https://c.example"].length - 1 ∧
    List.Sublist
      ((analyzeBatch
        (fun v _ =>
          if v = "https://b.example" then FetchOutcome.transportError "timeout"
          else FetchOutcome.ok 200 [])
        ["https://a.example", "https://b.example", "https://c.example"]).map
        Prod.fst)
      ["https://a.example", "https://b.example", "https://c.example"]) :=
  ⟨by decide, analyzeBatch_length_sublist _ _ 1 (by decide)⟩

/-- C2: for every input string the validator rejects, the Analyze flow issues
zero network calls (the guard at line 169 keeps `analyze_webpage`, the only
fetching code, from running). -/
theorem invalid_url_zero_network_calls
    (validatorUrl : String → Except PyErr Bool)
    (fetch : String → Nat → FetchOutcome) (url : String)
    (h : is_valid_url validatorUrl url = false) :
    (analyzeButtonFlow validatorUrl fetch url).networkCalls = 0 := by
  unfold analyzeButtonFlow
  rw [h]
  simp

/-- Witness for C2: the string not-a-url is rejected and triggers no fetch. -/
theorem invalid_url_zero_network_calls_witness :
    is_valid_url validators_url "not-a-url" = false ∧
    (analyzeButtonFlow validators_url
      (fun _ _ => FetchOutcome.transportError "never called")
      "not-a-url").networkCalls = 0 :=
  ⟨by decide, invalid_url_zero_network_calls validators_url
    (fun _ _ => FetchOutcome.transportError "never called") "not-a-url"
    (by decide)⟩

/-- C3: `analyze_webpage` is all-or-nothing. Every failure path (transport
error, HTTP error status, extraction exception) returns None, and a Some
result is exactly the complete record built by `extractResult` from a
successfully fetched document: the `AnalysisResult` structure carries all
seven fields, so no partially populated result can exist. -/
theorem analyze_webpage_all_or_nothing (fetch : String → Nat → FetchOutcome)
    (url : String) :
    (∀ m, fetch url 10 = FetchOutcome.transportError m →
      analyze_webpage fetch url = none) ∧
    (∀ s doc, fetch url 10 = FetchOutcome.ok s doc →
      raiseForStatusFails s = true → analyze_webpage fetch url = none) ∧
    (∀ s doc e, fetch url 10 = FetchOutcome.ok s doc →
      extractResult doc = Except.error e → analyze_webpage fetch url = none) ∧
    (∀ r, analyze_webpage fetch url = some r →
      ∃ s doc, fetch url 10 = FetchOutcome.ok s doc ∧
        raiseForStatusFails s = false ∧ extractResult doc = Except.ok r) := by
  refine ⟨fun m hm => ?_, fun s doc hf hs => ?_, fun s doc e hf he => ?_,
    fun r hr => ?_⟩
  · simp [analyze_webpage, hm]
  · simp [analyze_webpage, hf, hs]
  · rw [analyze_webpage, hf]
    simp only [he]
    split <;> rfl
  · unfold analyze_webpage at hr
    revert hr
    cases hf : fetch url 10 with
    | transportError m => intro hr; simp at hr
    | ok s doc =>
      by_cases hs : raiseForStatusFails s = true
      · intro hr; simp [hs] at hr
      · rw [Bool.not_eq_true] at hs
        cases he : extractResult doc with
        | error e => intro hr; simp [hs, he] at hr
        | ok r2 =>
          intro hr
          simp [hs, he] at hr
          exact ⟨s, doc, rfl, hs, by rw [he, hr]⟩

/-- Witness for C3: a timed-out fetch yields no result at all. -/
theorem analyze_webpage_all_or_nothing_witness :
    analyze_webpage (fun _ _ => FetchOutcome.transportError "timed out")
      "https://a.example" = none :=
  (analyze_webpage_all_or_nothing
    (fun _ _ => FetchOutcome.transportError "timed out") "https://a.example").1
    "timed out" rfl

/-- C4: `is_valid_url` with the spec-modelled validators library accepts
exactly the strings with scheme http or https and a non-empty host; the
wrapper never raises (its type is total) and maps any library exception to
False, so unparseable input yields False. -/
theorem is_valid_url_spec :
    (∀ url, is_valid_url validators_url url = true ↔
      (hasHttpScheme url = true ∧ urlHost url ≠ [])) ∧
    (∀ (v : String → Except PyErr Bool) url e, v url = Except.error e →
      is_valid_url v url = false) := by
  constructor
  · intro url
    simp [is_valid_url, validators_url]
  · intro v url e h
    unfold is_valid_url
    rw [h]

/-- Witness for C4: a raising library call is mapped to False. -/
theorem is_valid_url_spec_witness :
    is_valid_url (fun _ => Except.error (PyErr.otherError "boom"))
      "https://example.com" = false :=
  is_valid_url_spec.2 (fun _ => Except.error (PyErr.otherError "boom"))
    "https://example.com" (PyErr.otherError "boom") rfl

/-- C5 counterexample: metric extraction can fail. A document whose
description meta tag has no content attribute makes line 114 raise
`KeyError`, so extraction is not total. -/
theorem extractResult_keyError_cex :
    extractResult [Node.meta [("name", "description")]] =
      Except.error (PyErr.keyError "content") := by
  rfl

/-- C5 amended: metric extraction is a pure function of the parsed document
and never fails provided every description meta tag found carries a content
attribute; under that proviso a missing title yields the default title, a
missing description meta tag the default description, the counts are exactly
the element counts (zero when absent), and a missing viewport meta tag yields
the Missing flag. -/
theorem extractResult_defaults (soup : Soup)
    (h : ∀ a, findMetaNamed soup "description" = some a →
      (attrGet a "content").isSome = true) :
    ∃ r, extractResult soup = Except.ok r ∧
      (soupTitle soup = none → r.pageTitle = some "No Title") ∧
      (findMetaNamed soup "description" = none →
        r.metaDescription = "No Description") ∧
      r.additionalMetrics =
        { headers := countHeaders soup, images := countImages soup
          links := countLinks soup, metaTags := countMetaTags soup
          scripts := countScripts soup, cssFiles := countCssFiles soup } ∧
      (findMetaNamed soup "viewport" = none →
        r.mobileMetrics.viewportMeta = "Missing") := by
  cases hd : findMetaNamed soup "description" with
  | none =>
    have hm : metaDescriptionOf soup = Except.ok "No Description" := by
      unfold metaDescriptionOf
      rw [hd]
    refine ⟨fullRecord soup "No Description",
      by unfold extractResult; rw [hm], ?_, fun _ => rfl, rfl, ?_⟩
    · intro ht
      simp [fullRecord, pageTitleOf, ht]
    · intro hv
      simp [fullRecord, hv]
  | some a =>
    obtain ⟨c, hc⟩ := Option.isSome_iff_exists.mp (h a hd)
    have hm : metaDescriptionOf soup = Except.ok c := by
      unfold metaDescriptionOf
      rw [hd]
      simp only [hc]
    refine ⟨fullRecord soup c,
      by unfold extractResult; rw [hm], ?_, ?_, rfl, ?_⟩
    · intro ht
      simp [fullRecord, pageTitleOf, ht]
    · intro hdesc
      exact absurd hdesc (by simp)
    · intro hv
      simp [fullRecord, hv]

/-- Witness for C5 at the empty document: extraction succeeds with all the
defaults. -/
theorem extractResult_defaults_witness :
    ∃ r, extractResult [] = Except.ok r ∧
      (soupTitle [] = none → r.pageTitle = some "No Title") ∧
      (findMetaNamed [] "description" = none →
        r.metaDescription = "No Description") ∧
      r.additionalMetrics =
        { headers := countHeaders [], images := countImages []
          links := countLinks [], metaTags := countMetaTags []
          scripts := countScripts [], cssFiles := countCssFiles [] } ∧
      (findMetaNamed [] "viewport" = none →
        r.mobileMetrics.viewportMeta = "Missing") :=
  extractResult_defaults [] (fun _ ha => nomatch ha)

/-- C6 counterexample: a non-2xx final status need not fail the analysis.
`raise_for_status` raises only for 4xx and 5xx, so a fetch answering HTTP 304
still produces a result, contrary to the claim that every non-2xx status is
treated as an error. -/
theorem non2xx_not_error_cex :
    raiseForStatusFails 304 = false ∧
    (analyze_webpage (fun _ _ => FetchOutcome.ok 304 [])
      "https://example.com").isSome = true := by
  refine ⟨by decide, by decide⟩

/-- C6 amended: every page fetch carries the bounded timeout 10 (the
analysis depends on the network only through the timeout-10 request for its
URL), and a transport failure (including timeout expiry) or a 4xx/5xx status
is a request error scoped to that one URL: its analysis returns no result,
and a batch containing the failing URL is exactly the batch without it. -/
theorem fetch_timeout_and_error_scoped (fetch : String → Nat → FetchOutcome)
    (url : String) :
    (∀ g : String → Nat → FetchOutcome, g url 10 = fetch url 10 →
      analyze_webpage g url = analyze_webpage fetch url) ∧
    (∀ m, fetch url 10 = FetchOutcome.transportError m →
      analyze_webpage fetch url = none) ∧
    (∀ s doc, fetch url 10 = FetchOutcome.ok s doc → 400 ≤ s → s < 600 →
      analyze_webpage fetch url = none) ∧
    (∀ pre post, analyze_webpage fetch url = none →
      analyzeBatch fetch (pre ++ url :: post) =
        analyzeBatch fetch pre ++ analyzeBatch fetch post) := by
  refine ⟨fun g hg => ?_, fun m hm => ?_, fun s doc hf h4 h6 => ?_,
    fun pre post hnone => ?_⟩
  · unfold analyze_webpage
    rw [hg]
  · simp [analyze_webpage, hm]
  · have hs : raiseForStatusFails s = true := by
      unfold raiseForStatusFails
      simp only [decide_eq_true_eq]
      exact ⟨h4, h6⟩
    simp [analyze_webpage, hf, hs]
  · simp [analyzeBatch, List.filterMap_append, List.filterMap_cons, hnone]

/-- Witness for C6: a timed-out URL yields no result. -/
theorem fetch_timeout_and_error_scoped_witness :
    analyze_webpage (fun _ _ => FetchOutcome.transportError "timed out")
      "https://slow.example" = none :=
  (fetch_timeout_and_error_scoped
    (fun _ _ => FetchOutcome.transportError "timed out")
    "https://slow.example").2.1 "timed out" rfl

/-- C7 counterexample: with the credential absent from the environment,
start-up simply stores None and reports nothing; no ConfigurationError or
any other error surfaces. -/
theorem missing_credential_unreported_cex :
    startupConfig (fun _ => none) =
      { apiKey := none, reportedConfigError := none } :=
  rfl

/-- C7 amended: the credential is read from the process environment at
start-up, before any outbound call; its absence is never detected or
reported (the stored value is whatever the environment holds, None when
absent, and the script never uses it afterwards). -/
theorem startup_never_reports_config_error (env : String → Option String) :
    (startupConfig env).reportedConfigError = none ∧
    (startupConfig env).apiKey = env "API_KEY" :=
  ⟨rfl, rfl⟩

/-- C8: the tabular export never produces an artifact. The dictionary passed
to `pd.DataFrame` at lines 221-226 has only scalar values (ints and strings),
so the constructor raises ValueError; in the flow the exception is caught at
line 232 after the results were displayed, and no CSV is offered. -/
theorem export_always_raises_valueError :
    (∀ r : AnalysisResult, exportCsv r = Except.error
      (PyErr.valueError "If using all scalar values, you must pass an index")) ∧
    (analyzeButtonFlow validators_url (fun _ _ => FetchOutcome.ok 200 [])
      "https://a.example").displayed.isSome = true ∧
    (analyzeButtonFlow validators_url (fun _ _ => FetchOutcome.ok 200 [])
      "https://a.example").caughtError = some
        (PyErr.valueError "If using all scalar values, you must pass an index") ∧
    (analyzeButtonFlow validators_url (fun _ _ => FetchOutcome.ok 200 [])
      "https://a.example").exportArtifact = none := by
  refine ⟨fun r => rfl, by decide, by decide, by decide⟩

/-- C9 counterexample: on an empty batch (the single URL fails, so there are
zero results) the flow raises no error at all and offers no artifact; in
particular no ExportError is reported, contrary to the claim. -/
theorem empty_batch_no_exportError_cex :
    (analyzeButtonFlow validators_url
      (fun _ _ => FetchOutcome.transportError "timeout")
      "https://slow.example").displayed = none ∧
    (analyzeButtonFlow validators_url
      (fun _ _ => FetchOutcome.transportError "timeout")
      "https://slow.example").caughtError = none ∧
    (analyzeButtonFlow validators_url
      (fun _ _ => FetchOutcome.transportError "timeout")
      "https://slow.example").exportArtifact = none := by
  refine ⟨by decide, by decide, by decide⟩

/-- C9 amended: when the analysis yields no result (empty batch), the export
step is never reached: no artifact, empty or otherwise, is produced, and no
error is raised by the export code. -/
theorem empty_batch_skips_export (validatorUrl : String → Except PyErr Bool)
    (fetch : String → Nat → FetchOutcome) (url : String)
    (h : analyze_webpage fetch url = none) :
    (analyzeButtonFlow validatorUrl fetch url).exportArtifact = none ∧
    (analyzeButtonFlow validatorUrl fetch url).caughtError = none := by
  refine ⟨?_, ?_⟩ <;> (unfold analyzeButtonFlow; split <;> simp [h])

/-- Witness for C9: a failing fetch gives an empty batch, no artifact and no
error. -/
theorem empty_batch_skips_export_witness :
    analyze_webpage (fun _ _ => FetchOutcome.transportError "down")
      "https://b.example" = none ∧
    ((analyzeButtonFlow validators_url
        (fun _ _ => FetchOutcome.transportError "down")
        "https://b.example").exportArtifact = none ∧
      (analyzeButtonFlow validators_url
        (fun _ _ => FetchOutcome.transportError "down")
        "https://b.example").caughtError = none) :=
  ⟨rfl, empty_batch_skips_export validators_url
    (fun _ _ => FetchOutcome.transportError "down") "https://b.example" rfl⟩

/-- C10: every successful analysis returns the fixed mock constants for Core
Web Vitals, SEO score, accessibility score, and the fixed mobile strings,
regardless of the fetched content; among the mobile metrics only the viewport
field depends on the document. -/
theorem analysis_constants (fetch : String → Nat → FetchOutcome)
    (url : String) (soup : Soup) :
    (∀ r, analyze_webpage fetch url = some r →
      r.coreWebVitals = { lcp := "2.5s", fid := "100ms", cls := "0.1" } ∧
      r.seoScore = 85 ∧ r.accessibilityScore = 90 ∧
      r.mobileMetrics.mobileFriendly = "Yes" ∧
      r.mobileMetrics.textSize = "Readable" ∧
      r.mobileMetrics.tapTargetSpacing = "Adequate") ∧
    (∀ r, extractResult soup = Except.ok r →
      r.mobileMetrics.viewportMeta =
        if (findMetaNamed soup "viewport").isSome then "Present"
        else "Missing") := by
  constructor
  · intro r hr
    obtain ⟨doc, hd⟩ := analyze_some_extract fetch url r hr
    obtain ⟨h1, h2, h3, _, h5⟩ := extract_ok_shape doc r hd
    refine ⟨h1, h2, h3, ?_, ?_, ?_⟩ <;> rw [h5]
  · intro r hr
    obtain ⟨_, _, _, _, h5⟩ := extract_ok_shape soup r hr
    rw [h5]

/-- Witness for C10: a page containing only a viewport meta tag analyses to
the constant-filled record with viewport Present. -/
theorem analysis_constants_witness :
    ({ pageTitle := some "No Title", metaDescription := "No Description"
       coreWebVitals := { lcp := "2.5s", fid := "100ms", cls := "0.1" }
       seoScore := 85, accessibilityScore := 90
       additionalMetrics :=
         { headers := 0, images := 0, links := 0, metaTags := 1, scripts := 0
           cssFiles := 0 }
       mobileMetrics :=
         { mobileFriendly := "Yes", viewportMeta := "Present"
           textSize := "Readable", tapTargetSpacing := "Adequate" } } :
      AnalysisResult).seoScore = 85 :=
  ((analysis_constants
    (fun _ _ => FetchOutcome.ok 200 [Node.meta [("name", "viewport")]])
    "https://a.example" []).1 _ (by decide)).2.1

end WPA
